import Mathlib

/-!
Verification development for `python/ray/train/xgboost/xgboost_checkpoint.py`:
the XGBoost checkpoint adapter in its current-format variant
(`XGBoostCheckpoint`, backed by `FrameworkCheckpoint`) and its legacy-format
variant (`LegacyXGBoostCheckpoint`, backed by the legacy `ray.air` Checkpoint).

The adapter source file is embedded faithfully.  Its external collaborators —
the XGBoost model codec (`booster.save_model` / `booster.load_model`), the
generic Checkpoint store (`from_directory`, `as_directory`, `to_dict`,
`from_dict`, `set_preprocessor`), the Preprocessor Store
(`save_preprocessor_to_dir`) and the temporary-directory facility
(`tempfile.mkdtemp`, `tempfile.TemporaryDirectory`) — live outside the adapter
file and are modelled explicitly, with the filesystem as a list of
temporary-directory slots.
-/

set_option autoImplicit false

namespace XGBCkpt

/-- Serialized file contents, as a byte list. -/
abbrev Bytes := List Nat

/-- An in-memory XGBoost booster, abstracted to its learned parameters.
Two boosters are "equivalent" (same predictions on every input) exactly when
these parameters coincide. -/
structure Booster where
  weights : List Nat
  deriving DecidableEq

/-- A fitted preprocessor.  `pyTruthy` records the Python truthiness of the
object: a plain object is truthy, but a class overriding truthiness (for
example via a zero length) can produce a falsy instance.  The adapter tests
the supplied preprocessor with `if preprocessor:`, which consults exactly this
truthiness, so the embedding must carry it. -/
structure Preprocessor where
  state : List Nat
  pyTruthy : Bool
  deriving DecidableEq

/-- Errors raised by the collaborators and propagated by the adapter:
not-found errors for a missing file, codec errors for (de)serialization
failures, and other filesystem errors. -/
inductive Err where
  | fileNotFound (path : String)
  | codec (msg : String)
  | fsError (msg : String)
  deriving DecidableEq

/-- A directory: an association list from filename to file bytes. -/
abbrev Dir := List (String × Bytes)

/-- Write a file into a directory, replacing any previous file of that name. -/
def dirWrite (dir : Dir) (name : String) (content : Bytes) : Dir :=
  dir.filter (fun kv => !(kv.1 == name)) ++ [(name, content)]

/-- Look up a file in a directory by name. -/
def dirLookup (dir : Dir) (name : String) : Option Bytes :=
  (dir.find? (fun kv => kv.1 == name)).map Prod.snd

/-- The temporary-file area of the filesystem: one slot per temporary
directory ever created, `none` once that directory has been removed. -/
abbrev FS := List (Option Dir)

/-- A temporary directory is identified by its slot index. -/
abbrev DirId := Nat

/-- Modelled from the spec: `tempfile.mkdtemp` — create a fresh empty
temporary directory, never reusing a previously issued one. -/
def mkdtemp (fs : FS) : DirId × FS := (fs.length, fs ++ [some []])

/-- Read a directory from the filesystem; `none` if it was removed or never
created. -/
def readDir (fs : FS) (d : DirId) : Option Dir := fs.getD d none

/-- Whether directory `d` currently exists on the filesystem. -/
def dirExists (fs : FS) (d : DirId) : Bool := (readDir fs d).isSome

/-- Write a file into temporary directory `d`. -/
def fsWrite (fs : FS) (d : DirId) (name : String) (content : Bytes) : FS :=
  fs.set d (some (dirWrite ((readDir fs d).getD []) name content))

/-- Remove temporary directory `d` together with its contents
(`shutil.rmtree`, as performed by `TemporaryDirectory` cleanup). -/
def rmtree (fs : FS) (d : DirId) : FS := fs.set d none

/-- The XGBoost model codec (external library): the native serialization
produced by `booster.save_model`, here a length-prefixed parameter list. -/
def encodeBooster (b : Booster) : Bytes := b.weights.length :: b.weights

/-- The XGBoost model codec (external library): deserialization performed by
`booster.load_model` on a freshly constructed empty booster; fails with a
codec error on malformed bytes. -/
def decodeBooster (bs : Bytes) : Except Err Booster :=
  match bs with
  | [] => .error (.codec "empty model file")
  | n :: rest =>
    if rest.length = n then .ok ⟨rest⟩ else .error (.codec "corrupt model file")

/-- `XGBoostCheckpoint.MODEL_FILENAME` (source line 21): the format-local
model filename of the current-format adapter. -/
def MODEL_FILENAME : String := "model.pkl"

/-- Modelled from the spec: `MODEL_KEY`, the shared cross-framework constant
filename from `ray.air.constants` used by the legacy adapter; that module is
not under src/.  The spec states the two variants use different filenames. -/
def MODEL_KEY : String := "model"

/-- Modelled from the spec: the preprocessor artifact filename used by the
Preprocessor Store (`save_preprocessor_to_dir`, ray.air code not under
src/). -/
def PREPROCESSOR_KEY : String := "preprocessor.pkl"

/-- Serialization of a fitted preprocessor, as used by the Preprocessor
Store. -/
def encodePreprocessor (p : Preprocessor) : Bytes := p.state

/-- Modelled from the spec: `save_preprocessor_to_dir` persists the fitted
preprocessor state as a file inside the given directory. -/
def save_preprocessor_to_dir (p : Preprocessor) (d : DirId) (fs : FS) : FS :=
  fsWrite fs d PREPROCESSOR_KEY (encodePreprocessor p)

/-- Current-format checkpoint (`FrameworkCheckpoint`): references a local
directory and can carry the preprocessor as checkpoint metadata. -/
structure XGBoostCheckpoint where
  dirId : DirId
  preprocessor : Option Preprocessor
  deriving DecidableEq

/-- Modelled from the spec: `Checkpoint.from_directory` wraps a local
directory, with no preprocessor metadata attached yet. -/
def XGBoostCheckpoint.from_directory (d : DirId) : XGBoostCheckpoint := ⟨d, none⟩

/-- Modelled from the spec: `FrameworkCheckpoint.set_preprocessor` attaches
the preprocessor as checkpoint metadata; nothing is written to disk. -/
def XGBoostCheckpoint.set_preprocessor (c : XGBoostCheckpoint)
    (p : Preprocessor) : XGBoostCheckpoint :=
  { c with preprocessor := some p }

/-- `XGBoostCheckpoint.from_model` (source lines 23-62), parametric in the
model codec save routine (`booster.save_model` belongs to the external
XGBoost library).  The scratch directory is created by `tempfile.mkdtemp`
before the codec runs; on codec success the bytes land at
`<tmpdir>/<MODEL_FILENAME>`, the checkpoint is built with `from_directory`,
and a truthy preprocessor is attached via `set_preprocessor`.  The returned
filesystem reflects every write the call performed, also when the codec
raises. -/
def XGBoostCheckpoint.from_modelWith (saveFn : Booster → Except Err Bytes)
    (fs : FS) (booster : Booster) (preprocessor : Option Preprocessor) :
    Except Err XGBoostCheckpoint × FS :=
  let step := mkdtemp fs
  let tmpdir := step.1
  let fs1 := step.2
  match saveFn booster with
  | .error e => (.error e, fs1)
  | .ok bytes =>
    let fs2 := fsWrite fs1 tmpdir MODEL_FILENAME bytes
    let checkpoint := XGBoostCheckpoint.from_directory tmpdir
    let checkpoint :=
      match preprocessor with
      | some p =>
        if p.pyTruthy then checkpoint.set_preprocessor p else checkpoint
      | none => checkpoint
    (.ok checkpoint, fs2)

/-- `XGBoostCheckpoint.from_model` with the honest XGBoost codec. -/
def XGBoostCheckpoint.from_model (fs : FS) (booster : Booster)
    (preprocessor : Option Preprocessor) : Except Err XGBoostCheckpoint × FS :=
  XGBoostCheckpoint.from_modelWith (fun b => .ok (encodeBooster b))
    fs booster preprocessor

/-- Read and deserialize the model file named `name` from directory contents
`dir`: `booster = xgboost.Booster(); booster.load_model(path)`.  A missing
file surfaces as the not-found error of the filesystem/codec layer. -/
def readBoosterFromDir (loadFn : Bytes → Except Err Booster) (dir : Dir)
    (name : String) : Except Err Booster :=
  match dirLookup dir name with
  | none => .error (.fileNotFound name)
  | some bytes => loadFn bytes

/-- `XGBoostCheckpoint.get_model` (source lines 64-69), parametric in the
codec load routine.  Modelled from the spec for `as_directory`: on a
directory-backed checkpoint the scoped view is the backing directory itself
(no scratch materialization, nothing to release), and a missing backing
directory surfaces as a filesystem error. -/
def XGBoostCheckpoint.get_modelWith (loadFn : Bytes → Except Err Booster)
    (c : XGBoostCheckpoint) (fs : FS) : Except Err Booster × FS :=
  match readDir fs c.dirId with
  | none => (.error (.fsError "checkpoint directory missing"), fs)
  | some dir => (readBoosterFromDir loadFn dir MODEL_FILENAME, fs)

/-- `XGBoostCheckpoint.get_model` with the honest XGBoost codec. -/
def XGBoostCheckpoint.get_model (c : XGBoostCheckpoint) (fs : FS) :
    Except Err Booster × FS :=
  XGBoostCheckpoint.get_modelWith decodeBooster c fs

/-- Modelled from the spec: the legacy generic `ray.air` Checkpoint is either
a directory-reference representation or an in-memory dict-of-files
representation. -/
inductive LegacyCheckpoint where
  | dirBacked (dirId : DirId)
  | dictBacked (files : Dir)
  deriving DecidableEq

/-- Modelled from the spec: legacy `Checkpoint.from_directory`. -/
def LegacyCheckpoint.from_directory (d : DirId) : LegacyCheckpoint :=
  .dirBacked d

/-- Modelled from the spec: legacy `Checkpoint.to_dict` reads every file of a
directory-backed checkpoint into an in-memory dict; a dict-backed checkpoint
already is its dict. -/
def LegacyCheckpoint.to_dict (c : LegacyCheckpoint) (fs : FS) : Dir :=
  match c with
  | .dirBacked d => (readDir fs d).getD []
  | .dictBacked files => files

/-- Modelled from the spec: legacy `Checkpoint.from_dict` reconstructs a
checkpoint from the in-memory dict representation. -/
def LegacyCheckpoint.from_dict (files : Dir) : LegacyCheckpoint :=
  .dictBacked files

/-- Materialization of a dict-backed checkpoint into a scratch directory:
each entry of the dict is written as a file. -/
def materializeDir (files : Dir) : Dir :=
  files.foldl (fun acc kv => dirWrite acc kv.1 kv.2) []

/-- `LegacyXGBoostCheckpoint.from_model` (source lines 81-131), parametric in
the model codec save routine.  `tempfile.TemporaryDirectory` scopes the
scratch directory: the model file (at the shared `MODEL_KEY`) and, for a
truthy preprocessor, the preprocessor artifact are written inside the
with-block, the checkpoint is converted `directory → dict` still inside the
block, the scratch directory is removed when the block exits — on success and
on error alike — and a checkpoint reconstructed `dict → Checkpoint` is
returned. -/
def LegacyXGBoostCheckpoint.from_modelWith
    (saveFn : Booster → Except Err Bytes) (fs : FS) (booster : Booster)
    (preprocessor : Option Preprocessor) : Except Err LegacyCheckpoint × FS :=
  let step := mkdtemp fs
  let tmpdirname := step.1
  let fs1 := step.2
  match saveFn booster with
  | .error e => (.error e, rmtree fs1 tmpdirname)
  | .ok bytes =>
    let fs2 := fsWrite fs1 tmpdirname MODEL_KEY bytes
    let fs3 :=
      match preprocessor with
      | some p =>
        if p.pyTruthy then save_preprocessor_to_dir p tmpdirname fs2 else fs2
      | none => fs2
    let checkpoint := LegacyCheckpoint.from_directory tmpdirname
    let ckpt_dict := checkpoint.to_dict fs3
    let fs4 := rmtree fs3 tmpdirname
    (.ok (LegacyCheckpoint.from_dict ckpt_dict), fs4)

/-- `LegacyXGBoostCheckpoint.from_model` with the honest XGBoost codec. -/
def LegacyXGBoostCheckpoint.from_model (fs : FS) (booster : Booster)
    (preprocessor : Option Preprocessor) : Except Err LegacyCheckpoint × FS :=
  LegacyXGBoostCheckpoint.from_modelWith (fun b => .ok (encodeBooster b))
    fs booster preprocessor

/-- `LegacyXGBoostCheckpoint.get_model` (source lines 133-138), parametric in
the codec load routine.  Modelled from the spec for `as_directory`: a
directory-backed checkpoint yields its backing directory as the scoped view;
a dict-backed checkpoint materializes its dict into a fresh scratch directory
on entry and removes that directory on exit of the with-block, whatever the
outcome of the body. -/
def LegacyXGBoostCheckpoint.get_modelWith
    (loadFn : Bytes → Except Err Booster) (c : LegacyCheckpoint) (fs : FS) :
    Except Err Booster × FS :=
  match c with
  | .dirBacked d =>
    match readDir fs d with
    | none => (.error (.fsError "checkpoint directory missing"), fs)
    | some dir => (readBoosterFromDir loadFn dir MODEL_KEY, fs)
  | .dictBacked files =>
    let step := mkdtemp fs
    let tmpdir := step.1
    let fs1 := step.2
    let fs2 := fs1.set tmpdir (some (materializeDir files))
    let result :=
      readBoosterFromDir loadFn ((readDir fs2 tmpdir).getD []) MODEL_KEY
    (result, rmtree fs2 tmpdir)

/-- `LegacyXGBoostCheckpoint.get_model` with the honest XGBoost codec. -/
def LegacyXGBoostCheckpoint.get_model (c : LegacyCheckpoint) (fs : FS) :
    Except Err Booster × FS :=
  LegacyXGBoostCheckpoint.get_modelWith decodeBooster c fs

/-- The preprocessor metadata the current-format `from_model` attaches:
derived characterization of the truthiness test at source line 60. -/
def attachedPre (pre : Option Preprocessor) : Option Preprocessor :=
  match pre with
  | some p => if p.pyTruthy then some p else none
  | none => none

/-- The files the legacy `from_model` writes into its scratch directory:
derived characterization of source lines 123-126. -/
def legacyScratchFiles (b : Booster) (pre : Option Preprocessor) : Dir :=
  match pre with
  | some p =>
    if p.pyTruthy then
      [(MODEL_KEY, encodeBooster b), (PREPROCESSOR_KEY, encodePreprocessor p)]
    else [(MODEL_KEY, encodeBooster b)]
  | none => [(MODEL_KEY, encodeBooster b)]

theorem getD_append_len (fs : FS) (x : Option Dir) :
    (fs ++ [x]).getD fs.length none = x := by
  induction fs with
  | nil => rfl
  | cons a l ih => simp [ih]

theorem set_append_len (fs : FS) (x v : Option Dir) :
    (fs ++ [x]).set fs.length v = fs ++ [v] := by
  induction fs with
  | nil => rfl
  | cons a l ih => simp [ih]

theorem getD_set_self (fs : FS) (d : Nat) (v : Option Dir)
    (h : d < fs.length) : (fs.set d v).getD d none = v := by
  induction fs generalizing d with
  | nil => simp at h
  | cons a l ih =>
    cases d with
    | zero => simp
    | succ d => simpa using ih d (by simpa using h)

theorem getD_set_ne (fs : FS) (d e : Nat) (v : Option Dir) (h : d ≠ e) :
    (fs.set d v).getD e none = fs.getD e none := by
  induction fs generalizing d e with
  | nil => rfl
  | cons a l ih =>
    cases d with
    | zero =>
      cases e with
      | zero => exact absurd rfl h
      | succ e => simp
    | succ d =>
      cases e with
      | zero => simp
      | succ e => simpa using ih d e (by omega)

theorem getD_out_of_range (fs : FS) (d : Nat) (h : fs.length ≤ d) :
    fs.getD d none = none := by
  induction fs generalizing d with
  | nil => rfl
  | cons a l ih =>
    cases d with
    | zero => simp at h
    | succ d => simpa using ih d (by simpa using h)

theorem dirLookup_nil (name : String) : dirLookup [] name = none := rfl

theorem dirLookup_cons (k : String) (v : Bytes) (rest : Dir) (name : String) :
    dirLookup ((k, v) :: rest) name =
      if k = name then some v else dirLookup rest name := by
  by_cases h : k = name <;> simp [dirLookup, List.find?_cons, h]

theorem dirWrite_cons (a : String × Bytes) (l : Dir) (k : String) (v : Bytes) :
    dirWrite (a :: l) k v =
      if a.1 = k then dirWrite l k v else a :: dirWrite l k v := by
  by_cases h : a.1 = k <;> simp [dirWrite, List.filter_cons, h]

theorem dirLookup_dirWrite (dir : Dir) (k name : String) (v : Bytes) :
    dirLookup (dirWrite dir k v) name =
      if k = name then some v else dirLookup dir name := by
  induction dir with
  | nil =>
    by_cases h : k = name <;> simp [dirWrite, dirLookup_cons, h]
  | cons a l ih =>
    obtain ⟨ak, av⟩ := a
    rw [dirWrite_cons]
    by_cases hak : ak = k
    · rw [if_pos hak, ih, dirLookup_cons]
      by_cases hkn : k = name
      · simp [hkn]
      · have han : ¬ ak = name := fun hc => hkn (by rw [← hak]; exact hc)
        simp [hkn, han]
    · simp only [if_neg hak]
      rw [dirLookup_cons, ih, dirLookup_cons]
      by_cases han : ak = name
      · have hkn : ¬ k = name := fun hc => hak (by rw [hc, han])
        simp [han, hkn]
      · simp [han]

theorem dirLookup_foldl_write_of_none (files : Dir) (init : Dir)
    (name : String) (h : dirLookup files name = none) :
    dirLookup (files.foldl (fun acc kv => dirWrite acc kv.1 kv.2) init) name
      = dirLookup init name := by
  induction files generalizing init with
  | nil => rfl
  | cons a l ih =>
    obtain ⟨k, v⟩ := a
    rw [dirLookup_cons] at h
    by_cases hk : k = name
    · rw [if_pos hk] at h; exact absurd h (by simp)
    · rw [if_neg hk] at h
      rw [List.foldl_cons]
      rw [ih _ h, dirLookup_dirWrite, if_neg hk]

theorem decodeBooster_encodeBooster (b : Booster) :
    decodeBooster (encodeBooster b) = .ok b := by
  simp [encodeBooster, decodeBooster]

theorem model_key_ne_preprocessor_key : MODEL_KEY ≠ PREPROCESSOR_KEY := by
  decide

theorem model_filename_ne_model_key : MODEL_FILENAME ≠ MODEL_KEY := by
  decide

theorem model_filename_ne_preprocessor_key :
    MODEL_FILENAME ≠ PREPROCESSOR_KEY := by
  decide

theorem from_model_current_eq (fs : FS) (b : Booster)
    (pre : Option Preprocessor) :
    XGBoostCheckpoint.from_model fs b pre =
      (.ok ⟨fs.length, attachedPre pre⟩,
        fs ++ [some [(MODEL_FILENAME, encodeBooster b)]]) := by
  unfold XGBoostCheckpoint.from_model XGBoostCheckpoint.from_modelWith
  simp only [mkdtemp, fsWrite, readDir, getD_append_len, Option.getD_some,
    set_append_len, XGBoostCheckpoint.from_directory,
    XGBoostCheckpoint.set_preprocessor]
  cases pre with
  | none => simp [attachedPre, dirWrite]
  | some p =>
    by_cases hp : p.pyTruthy <;> simp [attachedPre, dirWrite, hp]

theorem from_model_legacy_eq (fs : FS) (b : Booster)
    (pre : Option Preprocessor) :
    LegacyXGBoostCheckpoint.from_model fs b pre =
      (.ok (.dictBacked (legacyScratchFiles b pre)), fs ++ [none]) := by
  unfold LegacyXGBoostCheckpoint.from_model
    LegacyXGBoostCheckpoint.from_modelWith
  simp only [mkdtemp, fsWrite, save_preprocessor_to_dir, readDir,
    getD_append_len, Option.getD_some, set_append_len,
    LegacyCheckpoint.from_directory, LegacyCheckpoint.to_dict,
    LegacyCheckpoint.from_dict, rmtree]
  cases pre with
  | none => simp [legacyScratchFiles, dirWrite, getD_append_len, set_append_len]
  | some p =>
    by_cases hp : p.pyTruthy
    · have hne : ¬ MODEL_KEY = PREPROCESSOR_KEY := model_key_ne_preprocessor_key
      simp [hp, legacyScratchFiles, fsWrite, readDir, getD_append_len,
        set_append_len, dirWrite, List.filter_cons, hne]
    · simp [legacyScratchFiles, dirWrite, hp, getD_append_len, set_append_len]

theorem get_model_dict_eq (loadFn : Bytes → Except Err Booster) (files : Dir)
    (fs : FS) :
    LegacyXGBoostCheckpoint.get_modelWith loadFn (.dictBacked files) fs =
      (readBoosterFromDir loadFn (materializeDir files) MODEL_KEY,
        fs ++ [none]) := by
  unfold LegacyXGBoostCheckpoint.get_modelWith
  simp [mkdtemp, readDir, set_append_len, getD_append_len, rmtree]

theorem getD_append_cons (fs : FS) (x : Option Dir) (rest : FS) :
    (fs ++ x :: rest).getD fs.length none = x := by
  induction fs with
  | nil => rfl
  | cons a l ih =>
    rw [List.cons_append, List.length_cons, List.getD_cons_succ]
    exact ih

theorem getD_append_none (fs : FS) (d : Nat) :
    (fs ++ [none]).getD d none = fs.getD d none := by
  by_cases hd : d < fs.length
  · exact List.getD_append fs [none] none d hd
  · rw [getD_out_of_range fs d (by omega)]
    rw [List.getD_append_right fs [none] none d (by omega)]
    cases h : d - fs.length with
    | zero => rfl
    | succ k => simp

/-- C1: round-trip — for every model, `get_model` applied to the checkpoint
returned by `from_model` yields the identical booster (bit-identical learned
parameters, hence identical predictions), in the current-format and the
legacy-format adapter alike. -/
theorem c1_round_trip (fs : FS) (b : Booster) (pre : Option Preprocessor) :
    (XGBoostCheckpoint.from_model fs b pre).1
      = .ok ⟨fs.length, attachedPre pre⟩ ∧
    (XGBoostCheckpoint.get_model ⟨fs.length, attachedPre pre⟩
        (XGBoostCheckpoint.from_model fs b pre).2).1 = .ok b ∧
    (LegacyXGBoostCheckpoint.from_model fs b pre).1
      = .ok (.dictBacked (legacyScratchFiles b pre)) ∧
    (LegacyXGBoostCheckpoint.get_model
        (.dictBacked (legacyScratchFiles b pre))
        (LegacyXGBoostCheckpoint.from_model fs b pre).2).1 = .ok b := by
  refine ⟨?_, ?_, ?_, ?_⟩
  · rw [from_model_current_eq]
  · rw [from_model_current_eq]
    unfold XGBoostCheckpoint.get_model XGBoostCheckpoint.get_modelWith
    simp [readDir, getD_append_len, readBoosterFromDir, dirLookup_cons,
      decodeBooster_encodeBooster]
  · rw [from_model_legacy_eq]
  · rw [from_model_legacy_eq]
    unfold LegacyXGBoostCheckpoint.get_model
    rw [get_model_dict_eq]
    have hne : ¬ PREPROCESSOR_KEY = MODEL_KEY :=
      fun hc => model_key_ne_preprocessor_key hc.symm
    cases pre with
    | none =>
      simp [legacyScratchFiles, materializeDir, readBoosterFromDir,
        dirLookup_dirWrite, decodeBooster_encodeBooster]
    | some p =>
      by_cases hp : p.pyTruthy <;>
        simp [legacyScratchFiles, hp, materializeDir, readBoosterFromDir,
          dirLookup_dirWrite, hne, decodeBooster_encodeBooster]

/-- C4: `get_model` releases its scoped local directory on every exit path:
for any codec load routine — including ones that fail, modelling a
deserialization error — and either adapter variant, every temporary directory
live after the call was live before it and vice versa; in particular the
scratch directory a dict-backed legacy checkpoint materializes is removed
again whatever the outcome. -/
theorem c4_scoped_directory_released (loadFn : Bytes → Except Err Booster)
    (fs : FS) (c : XGBoostCheckpoint) (lc : LegacyCheckpoint) (d : DirId) :
    dirExists (XGBoostCheckpoint.get_modelWith loadFn c fs).2 d
      = dirExists fs d ∧
    dirExists (LegacyXGBoostCheckpoint.get_modelWith loadFn lc fs).2 d
      = dirExists fs d := by
  constructor
  · unfold XGBoostCheckpoint.get_modelWith
    cases h : readDir fs c.dirId <;> simp
  · cases lc with
    | dirBacked d2 =>
      unfold LegacyXGBoostCheckpoint.get_modelWith
      cases h : readDir fs d2 <;> simp [h]
    | dictBacked files =>
      rw [get_model_dict_eq]
      unfold dirExists readDir
      rw [getD_append_none]

/-- C6: `from_model` with no preprocessor yields a checkpoint whose directory
contains exactly one file, located at the variant's model filename constant,
with no preprocessor artifact, and `get_model` on that checkpoint returns the
input booster — in both variants. -/
theorem c6_no_preprocessor_single_file (fs : FS) (b : Booster) :
    (XGBoostCheckpoint.from_model fs b none).1 = .ok ⟨fs.length, none⟩ ∧
    readDir (XGBoostCheckpoint.from_model fs b none).2 fs.length
      = some [(MODEL_FILENAME, encodeBooster b)] ∧
    dirLookup [(MODEL_FILENAME, encodeBooster b)] PREPROCESSOR_KEY = none ∧
    (XGBoostCheckpoint.get_model ⟨fs.length, none⟩
        (XGBoostCheckpoint.from_model fs b none).2).1 = .ok b ∧
    (LegacyXGBoostCheckpoint.from_model fs b none).1
      = .ok (.dictBacked [(MODEL_KEY, encodeBooster b)]) ∧
    dirLookup [(MODEL_KEY, encodeBooster b)] PREPROCESSOR_KEY = none ∧
    (LegacyXGBoostCheckpoint.get_model
        (.dictBacked [(MODEL_KEY, encodeBooster b)]) fs).1 = .ok b := by
  refine ⟨?_, ?_, ?_, ?_, ?_, ?_, ?_⟩
  · rw [from_model_current_eq]; rfl
  · rw [from_model_current_eq]
    simp [readDir, getD_append_len]
  · simp [dirLookup_cons, dirLookup_nil, model_filename_ne_preprocessor_key]
  · rw [from_model_current_eq]
    unfold XGBoostCheckpoint.get_model XGBoostCheckpoint.get_modelWith
    simp [readDir, getD_append_len, readBoosterFromDir, dirLookup_cons,
      decodeBooster_encodeBooster]
  · rw [from_model_legacy_eq]; rfl
  · simp [dirLookup_cons, dirLookup_nil, model_key_ne_preprocessor_key]
  · unfold LegacyXGBoostCheckpoint.get_model
    rw [get_model_dict_eq]
    simp [materializeDir, readBoosterFromDir, dirLookup_dirWrite,
      decodeBooster_encodeBooster]

/-- C7: the legacy `from_model` round-trips its checkpoint through the
dictionary representation before returning: the returned checkpoint is
`from_dict` of `to_dict` of the directory-backed checkpoint built on the
scratch directory, hence dict-backed — never a directory reference. -/
theorem c7_legacy_dict_round_trip (fs : FS) (b : Booster)
    (pre : Option Preprocessor) :
    (LegacyXGBoostCheckpoint.from_model fs b pre).1
      = .ok (LegacyCheckpoint.from_dict
          (LegacyCheckpoint.to_dict
            (LegacyCheckpoint.from_directory (mkdtemp fs).1)
            (fs ++ [some (legacyScratchFiles b pre)]))) ∧
    (∀ d, (LegacyXGBoostCheckpoint.from_model fs b pre).1
        ≠ .ok (LegacyCheckpoint.dirBacked d)) := by
  constructor
  · rw [from_model_legacy_eq]
    unfold LegacyCheckpoint.from_directory LegacyCheckpoint.to_dict
      LegacyCheckpoint.from_dict mkdtemp readDir
    simp [getD_append_len]
  · intro d
    rw [from_model_legacy_eq]
    simp

/-- C8 (amended): the current-format `from_model` leaves its scratch
temporary directory on the filesystem after returning and performs no
cleanup, while the legacy `from_model` removes its scratch directory before
returning — the written contents surviving only inside the returned
dict-backed checkpoint. -/
theorem c8_scratch_directory_fate (fs : FS) (b : Booster)
    (pre : Option Preprocessor) :
    dirExists (XGBoostCheckpoint.from_model fs b pre).2 (mkdtemp fs).1
      = true ∧
    dirExists (LegacyXGBoostCheckpoint.from_model fs b pre).2 (mkdtemp fs).1
      = false := by
  rw [from_model_current_eq, from_model_legacy_eq]
  unfold dirExists readDir mkdtemp
  simp [getD_append_len]

/-- C8 is refuted as stated: at a concrete call, the scratch directory the
legacy `from_model` creates does not exist on the filesystem once the call
returns, so it is not the case that every `from_model` call of both variants
leaves its scratch directory behind. -/
theorem c8_counterexample :
    ¬ dirExists (LegacyXGBoostCheckpoint.from_model [] ⟨[1]⟩ none).2
        (mkdtemp ([] : FS)).1 = true := by
  decide

/-- C10: both variants decide whether to handle the supplied preprocessor by
Python truthiness, not by comparison with None: a falsy non-None preprocessor
leaves checkpoint and filesystem exactly as if None had been passed. -/
theorem c10_truthiness (fs : FS) (b : Booster) (p : Preprocessor)
    (hp : p.pyTruthy = false) :
    XGBoostCheckpoint.from_model fs b (some p)
      = XGBoostCheckpoint.from_model fs b none ∧
    LegacyXGBoostCheckpoint.from_model fs b (some p)
      = LegacyXGBoostCheckpoint.from_model fs b none := by
  rw [from_model_current_eq, from_model_current_eq, from_model_legacy_eq,
    from_model_legacy_eq]
  simp [attachedPre, legacyScratchFiles, hp]

/-- Witness for C10 at a concrete falsy preprocessor. -/
theorem c10_truthiness_witness :
    (Preprocessor.mk [3] false).pyTruthy = false ∧
    (XGBoostCheckpoint.from_model [] ⟨[1]⟩ (some (Preprocessor.mk [3] false))
        = XGBoostCheckpoint.from_model [] ⟨[1]⟩ none ∧
      LegacyXGBoostCheckpoint.from_model [] ⟨[1]⟩
          (some (Preprocessor.mk [3] false))
        = LegacyXGBoostCheckpoint.from_model [] ⟨[1]⟩ none) :=
  ⟨rfl, c10_truthiness [] ⟨[1]⟩ (Preprocessor.mk [3] false) rfl⟩

/-- C2: `get_model` on any checkpoint whose directory lacks a file at the
variant's model filename constant fails with the not-found error and never
returns a model; moreover the directory written by the other format variant
lacks that filename (the constants differ), so cross-format reads fail this
way. -/
theorem c2_missing_model_file (fs : FS) (c : XGBoostCheckpoint) (dir : Dir)
    (h1 : readDir fs c.dirId = some dir)
    (h2 : dirLookup dir MODEL_FILENAME = none)
    (files : Dir) (h3 : dirLookup files MODEL_KEY = none)
    (d : DirId) (dir2 : Dir) (h4 : readDir fs d = some dir2)
    (h5 : dirLookup dir2 MODEL_KEY = none)
    (b : Booster) (pre : Option Preprocessor) (bytes : Bytes) :
    (XGBoostCheckpoint.get_model c fs).1
      = .error (.fileNotFound MODEL_FILENAME) ∧
    (LegacyXGBoostCheckpoint.get_model (.dictBacked files) fs).1
      = .error (.fileNotFound MODEL_KEY) ∧
    (LegacyXGBoostCheckpoint.get_model (.dirBacked d) fs).1
      = .error (.fileNotFound MODEL_KEY) ∧
    dirLookup (legacyScratchFiles b pre) MODEL_FILENAME = none ∧
    dirLookup [(MODEL_FILENAME, bytes)] MODEL_KEY = none := by
  refine ⟨?_, ?_, ?_, ?_, ?_⟩
  · unfold XGBoostCheckpoint.get_model XGBoostCheckpoint.get_modelWith
    simp [h1, readBoosterFromDir, h2]
  · unfold LegacyXGBoostCheckpoint.get_model
    rw [get_model_dict_eq]
    have hm : dirLookup (materializeDir files) MODEL_KEY = none := by
      unfold materializeDir
      rw [dirLookup_foldl_write_of_none files [] MODEL_KEY h3]
      rfl
    simp [readBoosterFromDir, hm]
  · unfold LegacyXGBoostCheckpoint.get_model
      LegacyXGBoostCheckpoint.get_modelWith
    simp [h4, readBoosterFromDir, h5]
  · have hm : ¬ MODEL_KEY = MODEL_FILENAME :=
      fun hc => model_filename_ne_model_key hc.symm
    have hp : ¬ PREPROCESSOR_KEY = MODEL_FILENAME :=
      fun hc => model_filename_ne_preprocessor_key hc.symm
    cases pre with
    | none => simp [legacyScratchFiles, dirLookup_cons, dirLookup_nil, hm]
    | some p =>
      by_cases hpt : p.pyTruthy <;>
        simp [legacyScratchFiles, hpt, dirLookup_cons, dirLookup_nil, hm, hp]
  · simp [dirLookup_cons, dirLookup_nil, model_filename_ne_model_key]

/-- Witness for C2 at concrete inputs, covering the spec scenario of a
checkpoint directory with zero files. -/
theorem c2_missing_model_file_witness :
    readDir [some []] (XGBoostCheckpoint.mk 0 none).dirId = some [] ∧
    dirLookup [] MODEL_FILENAME = none ∧
    dirLookup [] MODEL_KEY = none ∧
    readDir [some []] 0 = some [] ∧
    dirLookup [] MODEL_KEY = none ∧
    ((XGBoostCheckpoint.get_model (XGBoostCheckpoint.mk 0 none)
          [some []]).1
        = .error (.fileNotFound MODEL_FILENAME) ∧
      (LegacyXGBoostCheckpoint.get_model (.dictBacked []) [some []]).1
        = .error (.fileNotFound MODEL_KEY) ∧
      (LegacyXGBoostCheckpoint.get_model (.dirBacked 0) [some []]).1
        = .error (.fileNotFound MODEL_KEY) ∧
      dirLookup (legacyScratchFiles ⟨[7]⟩ none) MODEL_FILENAME = none ∧
      dirLookup [(MODEL_FILENAME, [7])] MODEL_KEY = none) :=
  ⟨rfl, rfl, rfl, rfl, rfl,
    c2_missing_model_file [some []] (XGBoostCheckpoint.mk 0 none) [] rfl rfl
      [] rfl 0 [] rfl rfl ⟨[7]⟩ none [7]⟩

/-- C3: collaborator errors are propagated verbatim: a failing codec save
routine makes either variant's `from_model` return exactly that error; a
failing codec load routine makes either variant's `get_model` return exactly
that error; a missing checkpoint directory surfaces as the filesystem layer's
own error — never caught, wrapped, retried, or replaced by a partial
result. -/
theorem c3_errors_propagated_verbatim
    (saveFn : Booster → Except Err Bytes)
    (loadFn : Bytes → Except Err Booster)
    (fs : FS) (b : Booster) (pre : Option Preprocessor) (e1 e2 : Err)
    (bytes : Bytes) (c : XGBoostCheckpoint) (dir : Dir) (files : Dir)
    (c2 : XGBoostCheckpoint)
    (hsave : saveFn b = .error e1)
    (hdir : readDir fs c.dirId = some dir)
    (hbytes : dirLookup dir MODEL_FILENAME = some bytes)
    (hload : loadFn bytes = .error e2)
    (hfiles : dirLookup (materializeDir files) MODEL_KEY = some bytes)
    (hmiss : readDir fs c2.dirId = none) :
    (XGBoostCheckpoint.from_modelWith saveFn fs b pre).1 = .error e1 ∧
    (LegacyXGBoostCheckpoint.from_modelWith saveFn fs b pre).1
      = .error e1 ∧
    (XGBoostCheckpoint.get_modelWith loadFn c fs).1 = .error e2 ∧
    (LegacyXGBoostCheckpoint.get_modelWith loadFn (.dictBacked files) fs).1
      = .error e2 ∧
    (XGBoostCheckpoint.get_modelWith loadFn c2 fs).1
      = .error (.fsError "checkpoint directory missing") := by
  refine ⟨?_, ?_, ?_, ?_, ?_⟩
  · unfold XGBoostCheckpoint.from_modelWith
    simp [hsave]
  · unfold LegacyXGBoostCheckpoint.from_modelWith
    simp [hsave]
  · unfold XGBoostCheckpoint.get_modelWith
    simp [hdir, readBoosterFromDir, hbytes, hload]
  · rw [get_model_dict_eq]
    simp [readBoosterFromDir, hfiles, hload]
  · unfold XGBoostCheckpoint.get_modelWith
    simp [hmiss]

/-- Witness for C3 at concrete failing collaborators. -/
theorem c3_errors_propagated_verbatim_witness :
    ((fun (_ : Booster) => (.error (.codec "save failed") : Except Err Bytes))
        ⟨[1]⟩ = .error (.codec "save failed")) ∧
    readDir [some [(MODEL_FILENAME, [9])], none]
        (XGBoostCheckpoint.mk 0 none).dirId
      = some [(MODEL_FILENAME, [9])] ∧
    dirLookup [(MODEL_FILENAME, [9])] MODEL_FILENAME = some [9] ∧
    ((fun (_ : Bytes) => (.error (.codec "load failed") : Except Err Booster))
        [9] = .error (.codec "load failed")) ∧
    dirLookup (materializeDir [(MODEL_KEY, [9])]) MODEL_KEY = some [9] ∧
    readDir [some [(MODEL_FILENAME, [9])], none]
        (XGBoostCheckpoint.mk 1 none).dirId = none ∧
    ((XGBoostCheckpoint.from_modelWith
          (fun _ => .error (.codec "save failed"))
          [some [(MODEL_FILENAME, [9])], none] ⟨[1]⟩ none).1
        = .error (.codec "save failed") ∧
      (LegacyXGBoostCheckpoint.from_modelWith
          (fun _ => .error (.codec "save failed"))
          [some [(MODEL_FILENAME, [9])], none] ⟨[1]⟩ none).1
        = .error (.codec "save failed") ∧
      (XGBoostCheckpoint.get_modelWith
          (fun _ => .error (.codec "load failed"))
          (XGBoostCheckpoint.mk 0 none)
          [some [(MODEL_FILENAME, [9])], none]).1
        = .error (.codec "load failed") ∧
      (LegacyXGBoostCheckpoint.get_modelWith
          (fun _ => .error (.codec "load failed"))
          (.dictBacked [(MODEL_KEY, [9])])
          [some [(MODEL_FILENAME, [9])], none]).1
        = .error (.codec "load failed") ∧
      (XGBoostCheckpoint.get_modelWith
          (fun _ => .error (.codec "load failed"))
          (XGBoostCheckpoint.mk 1 none)
          [some [(MODEL_FILENAME, [9])], none]).1
        = .error (.fsError "checkpoint directory missing")) :=
  ⟨rfl, rfl, by decide, rfl, by decide, rfl,
    c3_errors_propagated_verbatim
      (fun _ => .error (.codec "save failed"))
      (fun _ => .error (.codec "load failed"))
      [some [(MODEL_FILENAME, [9])], none] ⟨[1]⟩ none
      (.codec "save failed") (.codec "load failed") [9]
      (XGBoostCheckpoint.mk 0 none) [(MODEL_FILENAME, [9])]
      [(MODEL_KEY, [9])] (XGBoostCheckpoint.mk 1 none)
      rfl rfl (by decide) rfl (by decide) rfl⟩

/-- C5: a (truthy) supplied preprocessor is attached by the current-format
`from_model` as checkpoint metadata with nothing written for it into the
scratch directory, whereas the legacy `from_model` persists its fitted state
as a file in the scratch directory via the Preprocessor Store and returns a
dict-backed checkpoint, which carries no preprocessor metadata. -/
theorem c5_preprocessor_placement (fs : FS) (b : Booster) (p : Preprocessor)
    (hp : p.pyTruthy = true) :
    (XGBoostCheckpoint.from_model fs b (some p)).1
      = .ok ⟨fs.length, some p⟩ ∧
    readDir (XGBoostCheckpoint.from_model fs b (some p)).2 fs.length
      = some [(MODEL_FILENAME, encodeBooster b)] ∧
    (LegacyXGBoostCheckpoint.from_model fs b (some p)).1
      = .ok (.dictBacked [(MODEL_KEY, encodeBooster b),
          (PREPROCESSOR_KEY, encodePreprocessor p)]) := by
  rw [from_model_current_eq, from_model_legacy_eq]
  refine ⟨?_, ?_, ?_⟩
  · simp [attachedPre, hp]
  · simp [readDir, getD_append_len]
  · simp [legacyScratchFiles, hp]

/-- Witness for C5 at a concrete truthy preprocessor. -/
theorem c5_preprocessor_placement_witness :
    (Preprocessor.mk [4, 5] true).pyTruthy = true ∧
    ((XGBoostCheckpoint.from_model [] ⟨[2]⟩
          (some (Preprocessor.mk [4, 5] true))).1
        = .ok ⟨0, some (Preprocessor.mk [4, 5] true)⟩ ∧
      readDir (XGBoostCheckpoint.from_model [] ⟨[2]⟩
          (some (Preprocessor.mk [4, 5] true))).2 0
        = some [(MODEL_FILENAME, encodeBooster ⟨[2]⟩)] ∧
      (LegacyXGBoostCheckpoint.from_model [] ⟨[2]⟩
          (some (Preprocessor.mk [4, 5] true))).1
        = .ok (.dictBacked [(MODEL_KEY, encodeBooster ⟨[2]⟩),
            (PREPROCESSOR_KEY,
              encodePreprocessor (Preprocessor.mk [4, 5] true))])) :=
  ⟨rfl, c5_preprocessor_placement [] ⟨[2]⟩ (Preprocessor.mk [4, 5] true) rfl⟩

/-- C9: two successive `from_model` calls create distinct fresh scratch
directories and return independent checkpoints: each current-format
checkpoint still yields the model after the other's backing directory is
deleted, and a legacy dict-backed checkpoint's `get_model` result does not
depend on the filesystem at all. -/
theorem c9_independent_checkpoints (fs : FS) (b : Booster) :
    (XGBoostCheckpoint.from_model fs b none).1 = .ok ⟨fs.length, none⟩ ∧
    (XGBoostCheckpoint.from_model
        (XGBoostCheckpoint.from_model fs b none).2 b none).1
      = .ok ⟨fs.length + 1, none⟩ ∧
    fs.length ≠ fs.length + 1 ∧
    (XGBoostCheckpoint.get_model ⟨fs.length, none⟩
        (rmtree (XGBoostCheckpoint.from_model
            (XGBoostCheckpoint.from_model fs b none).2 b none).2
          (fs.length + 1))).1 = .ok b ∧
    (XGBoostCheckpoint.get_model ⟨fs.length + 1, none⟩
        (rmtree (XGBoostCheckpoint.from_model
            (XGBoostCheckpoint.from_model fs b none).2 b none).2
          fs.length)).1 = .ok b ∧
    (∀ (files : Dir) (fsA fsB : FS),
      (LegacyXGBoostCheckpoint.get_model (.dictBacked files) fsA).1
        = (LegacyXGBoostCheckpoint.get_model (.dictBacked files) fsB).1) := by
  have h1 : XGBoostCheckpoint.from_model fs b none
      = (.ok ⟨fs.length, none⟩,
          fs ++ [some [(MODEL_FILENAME, encodeBooster b)]]) := by
    rw [from_model_current_eq]
    simp [attachedPre]
  have h2 : XGBoostCheckpoint.from_model
      (fs ++ [some [(MODEL_FILENAME, encodeBooster b)]]) b none
      = (.ok ⟨fs.length + 1, none⟩,
          (fs ++ [some [(MODEL_FILENAME, encodeBooster b)]])
            ++ [some [(MODEL_FILENAME, encodeBooster b)]]) := by
    rw [from_model_current_eq]
    simp [attachedPre]
  refine ⟨by rw [h1], by simp [h1, h2], by omega, ?_, ?_, ?_⟩
  · simp only [h1, h2]
    unfold XGBoostCheckpoint.get_model XGBoostCheckpoint.get_modelWith
      rmtree readDir
    dsimp only
    rw [getD_set_ne _ _ _ _ (by omega)]
    rw [List.getD_append _ _ _ _ (by simp), getD_append_len]
    simp [readBoosterFromDir, dirLookup_cons, decodeBooster_encodeBooster]
  · simp only [h1, h2]
    unfold XGBoostCheckpoint.get_model XGBoostCheckpoint.get_modelWith
      rmtree readDir
    dsimp only
    rw [getD_set_ne _ _ _ _ (by omega)]
    have hlen : fs.length + 1
        = (fs ++ [some [(MODEL_FILENAME, encodeBooster b)]]).length := by
      simp
    rw [hlen, getD_append_len]
    simp [readBoosterFromDir, dirLookup_cons, decodeBooster_encodeBooster]
  · intro files fsA fsB
    unfold LegacyXGBoostCheckpoint.get_model
    rw [get_model_dict_eq, get_model_dict_eq]

end XGBCkpt
